import Mathlib

/-!
A verification development for the POX L2 learning switch with ARP-spoofing
mitigation (`src/l2_arp_mitigation.py`).  The Python module is shallowly
embedded: the module-level dictionaries `hosts` and `requests` become
association lists threaded through the functions, `time.time()` values become
integers, and an uncaught Python `KeyError` becomes an explicit error value.
-/

namespace ArpSpoof

/-- Addresses (MAC and IPv4) are modelled as natural numbers. -/
abbrev Addr := Nat

/-- The ethernet broadcast address ff:ff:ff:ff:ff:ff; source line 239 compares
the string form of the ethernet destination against it. -/
def broadcastMac : Addr := 281474976710655

/-- Lookup in a Python dictionary modelled as an association list; `none`
models a failed lookup (a `KeyError` when the source indexes directly). -/
def dictGet? {α β : Type} [DecidableEq α] : List (α × β) → α → Option β
  | [], _ => none
  | (k', v) :: rest, k => if k' = k then some v else dictGet? rest k

/-- Python membership test `k in d` / `k in d.keys()`. -/
def dictContains {α β : Type} [DecidableEq α] (d : List (α × β)) (k : α) : Bool :=
  (dictGet? d k).isSome

/-- Python dictionary assignment `d[k] = v`: overwrite the binding if the key
is present, append it otherwise. -/
def dictSet {α β : Type} [DecidableEq α] : List (α × β) → α → β → List (α × β)
  | [], k, v => [(k, v)]
  | (k', v') :: rest, k, v =>
      if k' = k then (k, v) :: rest else (k', v') :: dictSet rest k v

/-- Python `d.keys()`. -/
def dictKeys {α β : Type} (d : List (α × β)) : List α := d.map Prod.fst

/-- The module-level `hosts` table (source line 32): IP → MAC bindings fed by
the DHCP lease handler. -/
abbrev Hosts := List (Addr × Addr)

/-- The module-level `requests` table (source line 36): (srcIP, dstIP) → ARP
request timestamp, where the Python value `None` (here the inner
`Option.none`) is the "already answered / cleaned up" sentinel. -/
abbrev Requests := List ((Addr × Addr) × Option Int)

/-- ARP opcode constant `pkt.arp.REQUEST`. -/
def REQUEST : Nat := 1

/-- ARP opcode constant `pkt.arp.REPLY`. -/
def REPLY : Nat := 2

/-- The fields of an ARP packet that `_handle_PacketIn` reads
(source lines 200-207), named as in the source. -/
structure ArpPacket where
  opcode : Nat
  src_mac_eth : Addr
  dst_mac_eth : Addr
  src_ip_arp : Addr
  src_mac_arp : Addr
  dst_ip_arp : Addr
  dst_mac_arp : Addr
  deriving DecidableEq

/-- A Python exception escaping the packet handler. -/
inductive PyError where
  | keyError
  deriving DecidableEq

/-- Observable outcome of the ARP block of `_handle_PacketIn` (source lines
198-249): the number of `handle_spoof` drop-flow installs emitted, the
updated `requests` table, and whether the handler executed `return` before
step 2. -/
structure ArpResult where
  spoofs : Nat
  requestsAfter : Requests
  earlyReturn : Bool
  deriving DecidableEq

/-- The ARP-request branch, source lines 209-221.  A failing check 1
(`src_mac_eth != src_mac_arp`) calls `handle_spoof` and returns; failing
check 2 (`EthAddr(hosts[str(src_ip_arp)]) != src_mac_arp`) or check 3
(`dst_ip_arp not in hosts.keys()`) calls `handle_spoof` but falls through to
the unconditional store `requests[(src_ip_arp, dst_ip_arp)] = time.time()`;
indexing `hosts` with an unbound source IP raises `KeyError`. -/
def handleRequest (hosts : Hosts) (requests : Requests) (p : ArpPacket)
    (now : Int) : Except PyError ArpResult :=
  if p.src_mac_eth ≠ p.src_mac_arp then
    Except.ok ⟨1, requests, true⟩
  else
    match dictGet? hosts p.src_ip_arp with
    | none => Except.error PyError.keyError
    | some boundMac =>
        let spoofs : Nat :=
          if boundMac ≠ p.src_mac_arp then 1
          else if dictContains hosts p.dst_ip_arp then 0
          else 1
        Except.ok ⟨spoofs, dictSet requests (p.src_ip_arp, p.dst_ip_arp) (some now), false⟩

/-- The if/elif chain of reply checks 1-4, source lines 225-236: at most one
`handle_spoof` call; `hosts` is indexed for the source IP only when checks 1
and 2 passed, and for the destination IP only when check 3 also passed, and
either index raises `KeyError` on a missing binding. -/
def replyChain (hosts : Hosts) (p : ArpPacket) : Except PyError Nat :=
  if p.src_mac_eth ≠ p.src_mac_arp then Except.ok 1
  else if p.dst_mac_eth ≠ p.dst_mac_arp then Except.ok 1
  else
    match dictGet? hosts p.src_ip_arp with
    | none => Except.error PyError.keyError
    | some m =>
        if m ≠ p.src_mac_arp then Except.ok 1
        else
          match dictGet? hosts p.dst_ip_arp with
          | none => Except.error PyError.keyError
          | some m' =>
              if m' ≠ p.dst_mac_arp then Except.ok 1 else Except.ok 0

/-- The ARP-reply branch, source lines 223-249: the check 1-4 chain, then the
broadcast check (line 239), then the pending-request check
`requests[(dst_ip_arp, src_ip_arp)] == None` (line 245) — `KeyError` when the
key was never recorded, a spoof action plus `return` when the stored value is
`None`, and otherwise fall-through to the reset
`requests[(dst_ip_arp, src_ip_arp)] = None` (line 249), regardless of what
the earlier checks reported. -/
def handleReply (hosts : Hosts) (requests : Requests) (p : ArpPacket) :
    Except PyError ArpResult :=
  match replyChain hosts p with
  | Except.error e => Except.error e
  | Except.ok s1 =>
      let s2 : Nat := if p.dst_mac_eth = broadcastMac then s1 + 1 else s1
      match dictGet? requests (p.dst_ip_arp, p.src_ip_arp) with
      | none => Except.error PyError.keyError
      | some none => Except.ok ⟨s2 + 1, requests, true⟩
      | some (some _) =>
          Except.ok ⟨s2, dictSet requests (p.dst_ip_arp, p.src_ip_arp) none, false⟩

/-- The whole ARP block of `_handle_PacketIn` (source lines 198-249); an ARP
packet that is neither a request nor a reply falls through unchanged. -/
def handleArp (hosts : Hosts) (requests : Requests) (p : ArpPacket)
    (now : Int) : Except PyError ArpResult :=
  if p.opcode = REQUEST then handleRequest hosts requests p now
  else if p.opcode = REPLY then handleReply hosts requests p
  else Except.ok ⟨0, requests, false⟩

/-- Observable outcome of `_handle_PacketIn` up to and including step 1 of
the learning-switch algorithm for an ARP packet. -/
structure PacketInResult where
  spoofs : Nat
  requestsAfter : Requests
  macToPort : List (Addr × Nat)
  reachedStep2 : Bool
  deriving DecidableEq

/-- `_handle_PacketIn` on an ARP packet through step 1: the ARP block, then —
unless that block returned early — the learning update
`self.macToPort[packet.src] = event.port` (source line 252). -/
def handle_PacketIn (hosts : Hosts) (requests : Requests)
    (macToPort : List (Addr × Nat)) (p : ArpPacket) (now : Int)
    (inPort : Nat) : Except PyError PacketInResult :=
  match handleArp hosts requests p now with
  | Except.error e => Except.error e
  | Except.ok r =>
      if r.earlyReturn then
        Except.ok ⟨r.spoofs, r.requestsAfter, macToPort, false⟩
      else
        Except.ok ⟨r.spoofs, r.requestsAfter,
          dictSet macToPort p.src_mac_eth inPort, true⟩

/-- One pass of the `monitor_arp_requests` watchdog loop body (source lines
316-321): every entry whose value is not `None` and is older than 5 seconds
is set to `None`; no key is ever removed. -/
def sweep (requests : Requests) (now : Int) : Requests :=
  requests.map fun e =>
    match e.2 with
    | some t => if now - t > 5 then (e.1, none) else e
    | none => e

/-- Observable output of one call of the nested `flood` function (source
lines 137-157): whether an OFPP_FLOOD action was put on the packet-out (a
packet-out with no actions is still sent, dropping the buffered packet), and
whether the one-time "Flood hold-down expired" notice was logged. -/
structure FloodOut where
  flooded : Bool
  notice : Bool
  deriving DecidableEq

/-- One `flood` call at time `now`: `holdDown` is the module-level
`_flood_delay`, `ct` is `self.connection.connect_time`, `hde` is
`self.hold_down_expired`.  Returns the new value of `hold_down_expired`
paired with the observable output (source lines 140-157). -/
def flood (holdDown ct : Int) (hde : Bool) (now : Int) : Bool × FloodOut :=
  if holdDown ≤ now - ct then (true, ⟨true, !hde⟩)
  else (hde, ⟨false, false⟩)

/-- `self.hold_down_expired = _flood_delay == 0` (source line 105). -/
def initialHoldDownExpired (holdDown : Int) : Bool := holdDown == 0

/-- The outputs of a connection's successive `flood` calls at the given
times, threading `hold_down_expired` through the calls. -/
def floodTrace (holdDown ct : Int) (hde : Bool) : List Int → List FloodOut
  | [] => []
  | t :: ts =>
      let s := flood holdDown ct hde t
      s.2 :: floodTrace holdDown ct s.1 ts

/-- Value of a list of decimal digit characters. -/
def digitsToNat (cs : List Char) : Nat :=
  cs.foldl (fun acc c => acc * 10 + (c.toNat - 48)) 0

/-- A non-empty all-digit character list parses to its value. -/
def parseDigits (cs : List Char) : Option Nat :=
  if cs ≠ [] ∧ cs.all Char.isDigit then some (digitsToNat cs) else none

/-- Python `int(s, 10)`: an optional sign followed by decimal digits; any
other shape raises ValueError, modelled as `none`. -/
def pyInt (s : String) : Option Int :=
  match s.data with
  | '-' :: rest => (parseDigits rest).map fun n => -(n : Int)
  | '+' :: rest => (parseDigits rest).map fun n => (n : Int)
  | cs => (parseDigits cs).map fun n => (n : Int)

/-- `launch` (source lines 297-307): `_flood_delay = int(str(hold_down), 10)`
followed by `assert _flood_delay >= 0`, with every exception converted into
`RuntimeError("Expected hold-down to be a number")`; on success the accepted
value becomes the flood-suppression window. -/
def launch (hold_down : String) : Except String Int :=
  match pyInt hold_down with
  | some n =>
      if 0 ≤ n then Except.ok n
      else Except.error "Expected hold-down to be a number"
  | none => Except.error "Expected hold-down to be a number"

/-- The two match kinds built in `LearningSwitch.__init__`: ethertype =
ARP_TYPE (line 113), and nw_proto = 17 with tp_src = 67, tp_dst = 68
(line 122). -/
inductive RuleMatch where
  | arpEthertype
  | dhcpUdp
  deriving DecidableEq

/-- `of.OFP_FLOW_PERMANENT`. -/
def OFP_FLOW_PERMANENT : Nat := 0

/-- A flow-mod message as built in `LearningSwitch.__init__`: a match, the
two timeouts, and an output-to-OFPP_CONTROLLER action. -/
structure FlowModMsg where
  ruleMatch : RuleMatch
  idleTimeout : Nat
  hardTimeout : Nat
  toController : Bool
  deriving DecidableEq

/-- The ARP-capture rule (source lines 112-116). -/
def arpCaptureMsg : FlowModMsg :=
  ⟨RuleMatch.arpEthertype, OFP_FLOW_PERMANENT, OFP_FLOW_PERMANENT, true⟩

/-- The DHCP-capture rule (source lines 121-125). -/
def dhcpCaptureMsg : FlowModMsg :=
  ⟨RuleMatch.dhcpUdp, OFP_FLOW_PERMANENT, OFP_FLOW_PERMANENT, true⟩

/-- The flow-mod messages actually passed to `self.connection.send` during
`LearningSwitch.__init__`, in source order: the ARP-capture rule is sent
(line 117), but after the DHCP-capture rule is constructed (lines 121-125)
`__init__` registers the DHCP lease listener and returns without ever calling
`send` on it. -/
def connectionSetupSends : List FlowModMsg := [arpCaptureMsg]

end ArpSpoof

namespace ArpSpoof

/-! ### Dictionary lemmas -/

theorem dictGet?_dictSet_self {α β : Type} [DecidableEq α]
    (d : List (α × β)) (k : α) (v : β) :
    dictGet? (dictSet d k v) k = some v := by
  induction d with
  | nil => simp [dictSet, dictGet?]
  | cons e rest ih =>
      obtain ⟨k', v'⟩ := e
      by_cases h : k' = k
      · simp [dictSet, dictGet?, h]
      · simp [dictSet, dictGet?, h, ih]

theorem mem_dictKeys_dictSet {α β : Type} [DecidableEq α]
    (d : List (α × β)) (k k' : α) (v : β)
    (h : k ∈ dictKeys d) : k ∈ dictKeys (dictSet d k' v) := by
  induction d with
  | nil => simp [dictKeys] at h
  | cons e rest ih =>
      obtain ⟨k0, v0⟩ := e
      simp only [dictKeys, List.map_cons, List.mem_cons] at h
      by_cases h0 : k0 = k'
      · have hset : dictSet ((k0, v0) :: rest) k' v = (k', v) :: rest := by
          simp [dictSet, h0]
        rw [hset]
        simp only [dictKeys, List.map_cons, List.mem_cons]
        rcases h with h | h
        · exact Or.inl (h.trans h0)
        · exact Or.inr h
      · have hset : dictSet ((k0, v0) :: rest) k' v
            = (k0, v0) :: dictSet rest k' v := by
          simp [dictSet, h0]
        rw [hset]
        simp only [dictKeys, List.map_cons, List.mem_cons]
        rcases h with h | h
        · exact Or.inl h
        · exact Or.inr (ih h)

theorem mem_dictKeys_dictSet_self {α β : Type} [DecidableEq α]
    (d : List (α × β)) (k : α) (v : β) :
    k ∈ dictKeys (dictSet d k v) := by
  induction d with
  | nil => simp [dictSet, dictKeys]
  | cons e rest ih =>
      obtain ⟨k0, v0⟩ := e
      by_cases h0 : k0 = k
      · have hset : dictSet ((k0, v0) :: rest) k v = (k, v) :: rest := by
          simp [dictSet, h0]
        rw [hset]
        simp [dictKeys]
      · have hset : dictSet ((k0, v0) :: rest) k v
            = (k0, v0) :: dictSet rest k v := by
          simp [dictSet, h0]
        rw [hset]
        simp only [dictKeys, List.map_cons, List.mem_cons]
        exact Or.inr ih

theorem dictKeys_sweep (requests : Requests) (now : Int) :
    dictKeys (sweep requests now) = dictKeys requests := by
  induction requests with
  | nil => rfl
  | cons e rest ih =>
      obtain ⟨k, v⟩ := e
      cases v with
      | none => simpa [sweep, dictKeys] using ih
      | some t =>
          by_cases h : now - t > 5 <;>
            simpa [sweep, dictKeys, h] using ih

/-! ### Flood trace lemmas -/

theorem floodTrace_flooded (holdDown ct : Int) (hde : Bool) (ts : List Int) :
    (floodTrace holdDown ct hde ts).map (fun o => o.flooded)
      = ts.map fun t => decide (holdDown ≤ t - ct) := by
  induction ts generalizing hde with
  | nil => rfl
  | cons t ts ih =>
      by_cases h : holdDown ≤ t - ct <;>
        simp [floodTrace, flood, h, ih]

theorem floodTrace_notices (holdDown ct : Int) (hde : Bool) (ts : List Int) :
    (floodTrace holdDown ct hde ts).countP (fun o => o.notice)
      = if hde = false ∧ (ts.any fun t => decide (holdDown ≤ t - ct)) = true
        then 1 else 0 := by
  induction ts generalizing hde with
  | nil => simp [floodTrace]
  | cons t ts ih =>
      by_cases h : holdDown ≤ t - ct
      · cases hde <;>
          simp [floodTrace, flood, h, ih, List.countP_cons]
      · cases hde <;>
          simp [floodTrace, flood, h, ih, List.countP_cons]

/-! ### The claims -/

/-- C1 (code bug): during connection setup, exactly one flow-mod is passed to
`connection.send` — the permanent ARP-capture rule.  The permanent
DHCP-capture rule is constructed but `send` is never called on it, so the
claimed pair of flow installs is not emitted. -/
theorem connection_setup_sends_single_rule :
    connectionSetupSends = [arpCaptureMsg] ∧
    connectionSetupSends.length = 1 ∧
    dhcpCaptureMsg ∉ connectionSetupSends := by
  refine ⟨rfl, rfl, by decide⟩

/-- C2 (code bug): address-binding lookup misses raise an uncaught KeyError
instead of resolving to a SPOOF verdict: (1) a request whose source IP has no
binding (and whose ethernet and ARP source MACs agree); (2) a reply whose
source IP has no binding; (3) a reply with matching bindings whose
pending-request key (dstIP, srcIP) was never recorded. -/
theorem lookup_miss_raises_keyerror :
    handleRequest [] [] ⟨REQUEST, 1, broadcastMac, 10, 1, 20, 0⟩ 0 =
      Except.error PyError.keyError ∧
    handleReply [] [] ⟨REPLY, 2, 1, 20, 2, 10, 1⟩ =
      Except.error PyError.keyError ∧
    handleReply [(20, 2), (10, 1)] [] ⟨REPLY, 2, 1, 20, 2, 10, 1⟩ =
      Except.error PyError.keyError := by
  refine ⟨rfl, rfl, rfl⟩

/-- C3 counterexample: with the binding table {10 ↦ 5} and an empty pending
table, a request whose ethernet and ARP source MACs agree (both 7) fails
check 2 (the binding of IP 10 is 5, not 7), is classified SPOOF (one
drop-flow action emitted), and yet the pending entry (10, 20) is still
recorded — refuting "a request classified SPOOF leaves the
PendingRequestTracker unchanged". -/
theorem request_spoof_still_records_cex :
    handleRequest [(10, 5)] [] ⟨REQUEST, 7, 0, 10, 7, 20, 0⟩ 0 =
      Except.ok ⟨1, [((10, 20), some 0)], false⟩ ∧
    ([((10, 20), some 0)] : Requests) ≠ [] := by
  refine ⟨rfl, by decide⟩

/-- C3 amended: for a request that does not raise KeyError, the pending entry
(srcIP, dstIP) is set to Pending(now) if and only if check 1
(ethernet-src-MAC = ARP-src-MAC) passes — whether or not checks 2 and 3
classified the packet SPOOF — and the table is left unchanged exactly when
check 1 fails; moreover surviving the branch with check 1 passing requires
the source IP to have a binding. -/
theorem request_record_amended (hosts : Hosts) (requests : Requests)
    (p : ArpPacket) (now : Int) (res : ArpResult)
    (h : handleRequest hosts requests p now = Except.ok res) :
    (res.requestsAfter =
        if p.src_mac_eth = p.src_mac_arp then
          dictSet requests (p.src_ip_arp, p.dst_ip_arp) (some now)
        else requests) ∧
    (p.src_mac_eth = p.src_mac_arp → dictContains hosts p.src_ip_arp = true) := by
  unfold handleRequest at h
  by_cases h1 : p.src_mac_eth = p.src_mac_arp
  · simp only [h1, ne_eq, not_true_eq_false, if_false] at h
    cases hb : dictGet? hosts p.src_ip_arp with
    | none => rw [hb] at h; exact absurd h (by simp)
    | some boundMac =>
        rw [hb] at h
        have hres := (Except.ok.injEq _ _).mp h
        constructor
        · rw [← hres]
          simp [h1]
        · intro
          simp [dictContains, hb]
  · simp only [h1, ne_eq, not_false_eq_true, if_true] at h
    have hres := (Except.ok.injEq _ _).mp h
    constructor
    · rw [← hres]
      simp [h1]
    · intro hc
      exact absurd hc h1

/-- C4 counterexample: a reply failing check 1 (ethernet source 7 ≠ ARP
source 8) fires a SPOOF verdict (one drop-flow action emitted), yet the
pending entry (20, 10) is still cleared to the answered sentinel — refuting
"a reply for which any of the six checks fired a SPOOF verdict leaves the
pending entry unchanged". -/
theorem reply_spoof_still_clears_cex :
    handleReply [] [((20, 10), some 0)] ⟨REPLY, 7, 3, 10, 8, 20, 3⟩ =
      Except.ok ⟨1, [((20, 10), none)], false⟩ ∧
    ([((20, 10), none)] : Requests) ≠ [((20, 10), some 0)] := by
  refine ⟨rfl, by decide⟩

/-- C4 amended: for a reply that does not raise KeyError, the pending entry
(dstIP, srcIP) is cleared if and only if its stored value is Pending(t) —
SPOOF verdicts from checks 1-5 do not prevent the clear; only a stored
answered sentinel (check 6, itself a SPOOF with early return) leaves the
table unchanged — and the key must be present at all. -/
theorem reply_clear_amended (hosts : Hosts) (requests : Requests)
    (p : ArpPacket) (res : ArpResult)
    (h : handleReply hosts requests p = Except.ok res) :
    (res.requestsAfter =
        match dictGet? requests (p.dst_ip_arp, p.src_ip_arp) with
        | some (some _) => dictSet requests (p.dst_ip_arp, p.src_ip_arp) none
        | _ => requests) ∧
    (dictGet? requests (p.dst_ip_arp, p.src_ip_arp)).isSome = true := by
  unfold handleReply at h
  cases hc : replyChain hosts p with
  | error e => rw [hc] at h; exact absurd h (by simp)
  | ok s1 =>
      rw [hc] at h
      cases hp : dictGet? requests (p.dst_ip_arp, p.src_ip_arp) with
      | none => rw [hp] at h; exact absurd h (by simp)
      | some v =>
          rw [hp] at h
          cases v with
          | none =>
              have hres := (Except.ok.injEq _ _).mp h
              exact ⟨by rw [← hres], rfl⟩
          | some t =>
              have hres := (Except.ok.injEq _ _).mp h
              exact ⟨by rw [← hres], rfl⟩

/-- C5 counterexample: a request failing check 1 (ethernet source 7 ≠ ARP
source 8) is classified SPOOF (one drop-flow action emitted) and the handler
returns early: step 2 never runs, so macToPort is not updated — refuting
"there is no early return from the packet handler on a SPOOF verdict". -/
theorem spoof_early_return_cex :
    handle_PacketIn [] [] [] ⟨REQUEST, 7, 0, 10, 8, 20, 0⟩ 0 3 =
      Except.ok ⟨1, [], [], false⟩ := by
  rfl

/-- C5 amended: for an ARP packet that does not raise KeyError, the handler
returns early in exactly two cases — a request failing check 1, and a reply
whose pending entry for (dstIP, srcIP) holds the answered sentinel — both of
which are SPOOF verdicts (at least one drop-flow action was emitted); every
other packet, including every other packet classified SPOOF, continues to
step 2, where macToPort[srcMAC] is set to the ingress port. -/
theorem spoof_early_return_amended (hosts : Hosts) (requests : Requests)
    (p : ArpPacket) (now : Int) (res : ArpResult)
    (h : handleArp hosts requests p now = Except.ok res) :
    (res.earlyReturn = true → 1 ≤ res.spoofs) ∧
    (res.earlyReturn = true ↔
        (p.opcode = REQUEST ∧ p.src_mac_eth ≠ p.src_mac_arp) ∨
        (p.opcode = REPLY ∧
          dictGet? requests (p.dst_ip_arp, p.src_ip_arp) = some none)) ∧
    (∀ (macToPort : List (Addr × Nat)) (inPort : Nat),
        res.earlyReturn = false →
          handle_PacketIn hosts requests macToPort p now inPort =
            Except.ok ⟨res.spoofs, res.requestsAfter,
              dictSet macToPort p.src_mac_eth inPort, true⟩) := by
  have hstep : ∀ (macToPort : List (Addr × Nat)) (inPort : Nat),
      res.earlyReturn = false →
        handle_PacketIn hosts requests macToPort p now inPort =
          Except.ok ⟨res.spoofs, res.requestsAfter,
            dictSet macToPort p.src_mac_eth inPort, true⟩ := by
    intro macToPort inPort hearly
    simp [handle_PacketIn, h, hearly]
  refine ⟨?_, ?_, hstep⟩
  · unfold handleArp at h
    by_cases hop1 : p.opcode = REQUEST
    · rw [if_pos hop1] at h
      unfold handleRequest at h
      by_cases h1 : p.src_mac_eth = p.src_mac_arp
      · simp only [h1, ne_eq, not_true_eq_false, if_false] at h
        cases hb : dictGet? hosts p.src_ip_arp with
        | none => rw [hb] at h; exact absurd h (by simp)
        | some boundMac =>
            rw [hb] at h
            have hres := (Except.ok.injEq _ _).mp h
            rw [← hres]
            intro hfalse
            exact absurd hfalse (by simp)
      · simp only [h1, ne_eq, not_false_eq_true, if_true] at h
        have hres := (Except.ok.injEq _ _).mp h
        rw [← hres]
        intro
        exact Nat.le_refl 1
    · rw [if_neg hop1] at h
      by_cases hop2 : p.opcode = REPLY
      · rw [if_pos hop2] at h
        unfold handleReply at h
        cases hc : replyChain hosts p with
        | error e => rw [hc] at h; exact absurd h (by simp)
        | ok s1 =>
            rw [hc] at h
            cases hp : dictGet? requests (p.dst_ip_arp, p.src_ip_arp) with
            | none => rw [hp] at h; exact absurd h (by simp)
            | some v =>
                rw [hp] at h
                cases v with
                | none =>
                    have hres := (Except.ok.injEq _ _).mp h
                    rw [← hres]
                    intro
                    exact Nat.le_add_left 1 _
                | some t =>
                    have hres := (Except.ok.injEq _ _).mp h
                    rw [← hres]
                    intro hfalse
                    exact absurd hfalse (by simp)
      · rw [if_neg hop2] at h
        have hres := (Except.ok.injEq _ _).mp h
        rw [← hres]
        intro hfalse
        exact absurd hfalse (by simp)
  · unfold handleArp at h
    by_cases hop1 : p.opcode = REQUEST
    · rw [if_pos hop1] at h
      unfold handleRequest at h
      by_cases h1 : p.src_mac_eth = p.src_mac_arp
      · simp only [h1, ne_eq, not_true_eq_false, if_false] at h
        cases hb : dictGet? hosts p.src_ip_arp with
        | none => rw [hb] at h; exact absurd h (by simp)
        | some boundMac =>
            rw [hb] at h
            have hres := (Except.ok.injEq _ _).mp h
            rw [← hres]
            simp [hop1, h1, REQUEST, REPLY]
      · simp only [h1, ne_eq, not_false_eq_true, if_true] at h
        have hres := (Except.ok.injEq _ _).mp h
        rw [← hres]
        simp [hop1, h1, REQUEST, REPLY]
    · rw [if_neg hop1] at h
      by_cases hop2 : p.opcode = REPLY
      · rw [if_pos hop2] at h
        unfold handleReply at h
        cases hc : replyChain hosts p with
        | error e => rw [hc] at h; exact absurd h (by simp)
        | ok s1 =>
            rw [hc] at h
            cases hp : dictGet? requests (p.dst_ip_arp, p.src_ip_arp) with
            | none => rw [hp] at h; exact absurd h (by simp)
            | some v =>
                rw [hp] at h
                cases v with
                | none =>
                    have hres := (Except.ok.injEq _ _).mp h
                    rw [← hres]
                    simp [hop1, hop2, hp, REQUEST, REPLY]
                | some t =>
                    have hres := (Except.ok.injEq _ _).mp h
                    rw [← hres]
                    simp [hop1, hop2, hp, REQUEST, REPLY]
      · rw [if_neg hop2] at h
        have hres := (Except.ok.injEq _ _).mp h
        simp only [REQUEST, REPLY] at hop1 hop2
        rw [← hres]
        simp [hop1, hop2, REQUEST, REPLY]

/-- Witness for the amended C3 at a concrete input: the spoofed-but-recorded
request of the counterexample. -/
theorem request_record_amended_witness :
    ((⟨1, [((10, 20), some 0)], false⟩ : ArpResult).requestsAfter =
        if (7 : Addr) = 7 then dictSet ([] : Requests) (10, 20) (some 0)
        else ([] : Requests)) ∧
    ((7 : Addr) = 7 → dictContains [((10 : Addr), (5 : Addr))] 10 = true) :=
  request_record_amended [(10, 5)] [] ⟨REQUEST, 7, 0, 10, 7, 20, 0⟩ 0
    ⟨1, [((10, 20), some 0)], false⟩ rfl

/-- Witness for the amended C4 at a concrete input: the spoofed-but-cleared
reply of the counterexample. -/
theorem reply_clear_amended_witness :
    ((⟨1, [((20, 10), none)], false⟩ : ArpResult).requestsAfter =
        match dictGet? [((20, 10), some 0)] ((20 : Addr), (10 : Addr)) with
        | some (some _) => dictSet [((20, 10), some 0)] (20, 10) none
        | _ => ([((20, 10), some 0)] : Requests)) ∧
    (dictGet? [((20, 10), some 0)] ((20 : Addr), (10 : Addr))).isSome = true :=
  reply_clear_amended [] [((20, 10), some 0)] ⟨REPLY, 7, 3, 10, 8, 20, 3⟩
    ⟨1, [((20, 10), none)], false⟩ rfl

/-- Witness for the amended C5 at a concrete input: the early-returning
spoofed request of the counterexample. -/
theorem spoof_early_return_amended_witness :
    ((⟨1, [], true⟩ : ArpResult).earlyReturn = true →
        1 ≤ (⟨1, [], true⟩ : ArpResult).spoofs) ∧
    ((⟨1, [], true⟩ : ArpResult).earlyReturn = true ↔
        (REQUEST = REQUEST ∧ (7 : Addr) ≠ 8) ∨
        (REQUEST = REPLY ∧ dictGet? ([] : Requests) (20, 10) = some none)) ∧
    (∀ (macToPort : List (Addr × Nat)) (inPort : Nat),
        (⟨1, [], true⟩ : ArpResult).earlyReturn = false →
          handle_PacketIn [] [] macToPort ⟨REQUEST, 7, 0, 10, 8, 20, 0⟩ 0 inPort =
            Except.ok ⟨1, [], dictSet macToPort 7 inPort, true⟩) :=
  spoof_early_return_amended [] [] ⟨REQUEST, 7, 0, 10, 8, 20, 0⟩ 0
    ⟨1, [], true⟩ rfl

/-- C6: a request from (srcIP = A, dstIP = B) that passes validation records
Pending(t1) for (A, B); a matching reply (srcIP = B, dstIP = A) that passes
all checks clears the entry to the answered sentinel; and a second identical
reply presented afterward is classified SPOOF (one drop-flow action, early
return) because no outstanding request matches, leaving the table
unchanged. -/
theorem request_reply_replay (hosts : Hosts) (requests : Requests)
    (A B macA macB : Addr) (t1 : Int)
    (hA : dictGet? hosts A = some macA) (hB : dictGet? hosts B = some macB)
    (hbc : macA ≠ broadcastMac) :
    handleRequest hosts requests ⟨REQUEST, macA, broadcastMac, A, macA, B, macB⟩ t1 =
      Except.ok ⟨0, dictSet requests (A, B) (some t1), false⟩ ∧
    handleReply hosts (dictSet requests (A, B) (some t1))
        ⟨REPLY, macB, macA, B, macB, A, macA⟩ =
      Except.ok ⟨0, dictSet (dictSet requests (A, B) (some t1)) (A, B) none, false⟩ ∧
    dictGet? (dictSet (dictSet requests (A, B) (some t1)) (A, B) none) (A, B) =
      some none ∧
    handleReply hosts (dictSet (dictSet requests (A, B) (some t1)) (A, B) none)
        ⟨REPLY, macB, macA, B, macB, A, macA⟩ =
      Except.ok ⟨1, dictSet (dictSet requests (A, B) (some t1)) (A, B) none, true⟩ := by
  have hchain : replyChain hosts ⟨REPLY, macB, macA, B, macB, A, macA⟩ =
      Except.ok 0 := by
    simp [replyChain, hA, hB]
  refine ⟨?_, ?_, ?_, ?_⟩
  · simp [handleRequest, hA, dictContains, hB]
  · simp [handleReply, hchain, hbc,
      dictGet?_dictSet_self requests (A, B) (some t1)]
  · exact dictGet?_dictSet_self _ _ _
  · simp [handleReply, hchain, hbc,
      dictGet?_dictSet_self (dictSet requests (A, B) (some t1)) (A, B)
        (none : Option Int)]

/-- Witness for C6 at a concrete input: hosts {10 ↦ 1, 20 ↦ 2}, an empty
pending table, a request 10 → 20 at time 0 and its matching reply replayed
twice. -/
theorem request_reply_replay_witness :
    handleRequest [(10, 1), (20, 2)] []
        ⟨REQUEST, 1, broadcastMac, 10, 1, 20, 2⟩ 0 =
      Except.ok ⟨0, dictSet ([] : Requests) (10, 20) (some 0), false⟩ ∧
    handleReply [(10, 1), (20, 2)] (dictSet ([] : Requests) (10, 20) (some 0))
        ⟨REPLY, 2, 1, 20, 2, 10, 1⟩ =
      Except.ok ⟨0, dictSet (dictSet ([] : Requests) (10, 20) (some 0)) (10, 20) none,
        false⟩ ∧
    dictGet? (dictSet (dictSet ([] : Requests) (10, 20) (some 0)) (10, 20) none)
        (10, 20) = some none ∧
    handleReply [(10, 1), (20, 2)]
        (dictSet (dictSet ([] : Requests) (10, 20) (some 0)) (10, 20) none)
        ⟨REPLY, 2, 1, 20, 2, 10, 1⟩ =
      Except.ok ⟨1, dictSet (dictSet ([] : Requests) (10, 20) (some 0)) (10, 20) none,
        true⟩ :=
  request_reply_replay [(10, 1), (20, 2)] [] 10 20 1 2 0 rfl rfl (by decide)

/-- C7: one watchdog sweep at time `now` turns every entry Pending(t) with
now − t > 5 into the answered sentinel, leaves every entry Pending(t) with
now − t ≤ 5 and every already-answered entry unchanged, and introduces no
entry for keys that were absent. -/
theorem sweep_entry_spec (requests : Requests) (now : Int) (k : Addr × Addr) :
    dictGet? (sweep requests now) k =
      match dictGet? requests k with
      | some (some t) => if now - t > 5 then some none else some (some t)
      | o => o := by
  induction requests with
  | nil => rfl
  | cons e rest ih =>
      obtain ⟨k', v⟩ := e
      cases v with
      | none =>
          have hcons : sweep ((k', (none : Option Int)) :: rest) now
              = (k', none) :: sweep rest now := by
            simp [sweep]
          rw [hcons]
          simp only [dictGet?]
          by_cases hk : k' = k
          · simp [hk]
          · simp only [if_neg hk]
            exact ih
      | some t =>
          by_cases h5 : (5 : Int) < now - t
          · have hcons : sweep ((k', some t) :: rest) now
                = (k', none) :: sweep rest now := by
              simp only [sweep, List.map_cons]
              rw [if_pos h5]
            rw [hcons]
            simp only [dictGet?]
            by_cases hk : k' = k
            · simp [hk, h5]
            · simp only [if_neg hk]
              exact ih
          · have hcons : sweep ((k', some t) :: rest) now
                = (k', some t) :: sweep rest now := by
              simp only [sweep, List.map_cons]
              rw [if_neg h5]
            rw [hcons]
            simp only [dictGet?]
            by_cases hk : k' = k
            · simp [hk, h5]
            · simp only [if_neg hk]
              exact ih

/-- C8 counterexample: with holdDown = 0 (the default) the very first flood
already satisfies now − connectTime ≥ holdDown, so by the claim it should log
the one-time hold-down-expired notice; the code initializes
hold_down_expired to true when the delay is 0, so no notice is ever
logged. -/
theorem flood_hold_down_cex :
    ((0 : Int) ≤ 0 - 0) ∧
    floodTrace 0 0 (initialHoldDownExpired 0) [0] = [⟨true, false⟩] ∧
    (floodTrace 0 0 (initialHoldDownExpired 0) [0]).countP (fun o => o.notice)
      = 0 := by
  refine ⟨by decide, rfl, rfl⟩

/-- C8 amended: over any sequence of flood calls on a fresh connection, a
flood at time t emits the flood action exactly when t − connectTime ≥
holdDown (otherwise the packet-out carries no action, so the packet is
neither flooded nor forwarded); and the hold-down-expired notice is logged
exactly once — at the first threshold-crossing flood — when holdDown ≠ 0 and
some flood crosses the threshold, and never otherwise (in particular never
when holdDown = 0). -/
theorem flood_hold_down_amended (holdDown ct : Int) (ts : List Int) :
    (floodTrace holdDown ct (initialHoldDownExpired holdDown) ts).map
        (fun o => o.flooded) = (ts.map fun t => decide (holdDown ≤ t - ct)) ∧
    (floodTrace holdDown ct (initialHoldDownExpired holdDown) ts).countP
        (fun o => o.notice) =
      if holdDown ≠ 0 ∧ (ts.any fun t => decide (holdDown ≤ t - ct)) = true
      then 1 else 0 := by
  refine ⟨floodTrace_flooded _ _ _ _, ?_⟩
  rw [floodTrace_notices]
  by_cases h : holdDown = 0 <;> simp [initialHoldDownExpired, h]

/-- C9: a hold-down option that does not parse as a decimal integer, or
parses to a negative one, makes launch fail with the descriptive
RuntimeError message rather than fall back to a default; a non-negative
integer is accepted as the flood-suppression window. -/
theorem launch_hold_down_validation :
    (∀ s : String, pyInt s = none →
        launch s = Except.error "Expected hold-down to be a number") ∧
    (∀ (s : String) (n : Int), pyInt s = some n → n < 0 →
        launch s = Except.error "Expected hold-down to be a number") ∧
    (∀ (s : String) (n : Int), pyInt s = some n → 0 ≤ n →
        launch s = Except.ok n) := by
  refine ⟨?_, ?_, ?_⟩
  · intro s hs
    simp [launch, hs]
  · intro s n hs hn
    simp only [launch, hs]
    rw [if_neg (not_le.mpr hn)]
  · intro s n hs hn
    simp only [launch, hs]
    rw [if_pos hn]

/-- Witness for C9 at concrete inputs: a non-numeric string and a negative
value are rejected with the descriptive error; 4 is accepted. -/
theorem launch_hold_down_validation_witness :
    launch "x7" = Except.error "Expected hold-down to be a number" ∧
    launch "-2" = Except.error "Expected hold-down to be a number" ∧
    launch "4" = Except.ok 4 :=
  ⟨launch_hold_down_validation.1 "x7" rfl,
   launch_hold_down_validation.2.1 "-2" (-2) rfl (by decide),
   launch_hold_down_validation.2.2 "4" 4 rfl (by decide)⟩

/-- C10: the key set of the pending-request table never shrinks — assignment
(record as well as clear) preserves existing keys and adds the assigned one,
and the watchdog sweep preserves the key set exactly — and a key cleared to
the answered sentinel remains observably distinct from a never-recorded key:
lookup yields the sentinel for the former and a miss for the latter. -/
theorem pending_keys_never_shrink :
    (∀ (requests : Requests) (k k' : Addr × Addr) (v : Option Int),
        k ∈ dictKeys requests → k ∈ dictKeys (dictSet requests k' v)) ∧
    (∀ (requests : Requests) (k : Addr × Addr) (v : Option Int),
        k ∈ dictKeys (dictSet requests k v)) ∧
    (∀ (requests : Requests) (now : Int),
        dictKeys (sweep requests now) = dictKeys requests) ∧
    (∀ (requests : Requests) (k : Addr × Addr),
        dictGet? (dictSet requests k none) k = some none) ∧
    (∀ k : Addr × Addr, dictGet? ([] : Requests) k = none) :=
  ⟨fun requests k k' v h => mem_dictKeys_dictSet requests k k' v h,
   fun requests k v => mem_dictKeys_dictSet_self requests k v,
   fun requests now => dictKeys_sweep requests now,
   fun requests k => dictGet?_dictSet_self requests k none,
   fun _ => rfl⟩

/-- Witness for C10 at a concrete input: clearing key (3, 4) keeps the
previously recorded key (1, 2) in the table. -/
theorem pending_keys_never_shrink_witness :
    ((1, 2) : Addr × Addr) ∈
      dictKeys (dictSet [((1, 2), some 0)] ((3, 4) : Addr × Addr)
        (none : Option Int)) :=
  pending_keys_never_shrink.1 [((1, 2), some 0)] (1, 2) (3, 4) none (by decide)

end ArpSpoof
